import Mathlib

/-!
Shallow embedding of the durable guide-generation pipeline
(worker activities `convert.ts`, `generate.ts`, `db.ts` and the
workflows in `guideGeneration.ts`), together with proofs of the
specification's testable properties.

Modelling conventions:
* Database rows (`File`, `Guide`) are Lean structures; each activity is a
  pure function from the row's state (plus an environment of
  nondeterministic inputs: the worker's processing token, the clock, and
  the outcomes of the mocked external search/generation calls) to the
  new row state paired with the activity's result.
* A thrown JS error is `Except.error`; the distinguished `LeaseHeldError`
  is a separate constructor from ordinary errors.
* Conditional `updateMany` writes become conditional state updates; an
  update whose `where` clause does not match the current row is a write
  of zero rows, i.e. the state is unchanged.
* Timestamps are integer milliseconds. JS float `relevance` values are
  carried as integer percentages (no claim depends on their value).
* Wall-clock latency simulation and heartbeat renewal have no effect on
  the final row in this single-worker embedding (every terminal or reset
  write clears the lease fields), so `simulateLatency` is the identity.
-/

namespace Trelent

/-- Guide status enum from the Prisma schema. -/
inductive GuideStatus
  | pending
  | searching
  | generating
  | completed
  | needs_attention
  deriving DecidableEq, Repr

/-- File status enum from the Prisma schema. -/
inductive FileStatus
  | pending
  | converting
  | converted
  | failed
  deriving DecidableEq, Repr

/-- One entry of a guide's cached search results (`SearchResult` in
`generate.ts`); `relevancePct` carries the JS float `relevance` as an
integer percentage. -/
structure SearchResult where
  fileId : String
  filename : String
  snippet : String
  relevancePct : Int
  deriving DecidableEq, Repr

/-- Structured JSON blob written to a guide's `failureDetails` column:
either `\x7b error, attempts \x7d` or `\x7b lastError, attempt \x7d`. -/
inductive FailureDetails
  | errorAttempts (error : String) (attempts : Nat)
  | lastErrorAttempt (lastError : String) (attempt : Nat)
  deriving DecidableEq, Repr

/-- A guide row: the fields of the `Guide` Prisma model read or written
by `processGuide`. -/
structure Guide where
  name : String
  description : String
  status : GuideStatus
  searchResults : Option (List SearchResult)
  htmlContent : Option String
  failureReason : Option String
  failureDetails : Option FailureDetails
  attempts : Nat
  forceFailure : Bool
  processingToken : Option String
  processingStartedAt : Option Int
  processingHeartbeatAt : Option Int
  deriving DecidableEq, Repr

/-- A file row: the fields of the `File` Prisma model read or written by
`convertFile`. -/
structure File where
  filename : String
  status : FileStatus
  markdownContent : Option String
  errorMessage : Option String
  processingToken : Option String
  processingStartedAt : Option Int
  deriving DecidableEq, Repr

/-- Constant `LEASE_EXPIRY_MS = 5 * 60 * 1000` (both `convert.ts` and
`generate.ts`). -/
def LEASE_EXPIRY_MS : Int := 5 * 60 * 1000

/-- JS truthiness of a nullable string column (`null` and `''` are
falsy), as used by the idempotency guards. -/
def strTruthy : Option String → Bool
  | none => false
  | some s => !s.isEmpty

/-- Predicate `hasNonEmptySearchResults` from `generate.ts`:
`Array.isArray(value) && value.length > 0` on the nullable JSON column. -/
def hasNonEmptySearchResults : Option (List SearchResult) → Bool
  | none => false
  | some l => !l.isEmpty

/-- Function `escapeHtml` from `generate.ts`. -/
def escapeHtml (s : String) : String :=
  ((((s.replace "&" "&amp;").replace "<" "&lt;").replace ">" "&gt;").replace
      "\x22" "&quot;").replace "\x27" "&#039;"

/-- The case-insensitive extension strip in `generateMockMarkdown`
(`filename.replace(/\.(pdf|docx|doc|txt)$/i, '')`). -/
def stripDocExtension (filename : String) : String :=
  match [".pdf", ".docx", ".doc", ".txt"].find? (fun e => filename.toLower.endsWith e) with
  | some e => filename.dropRight e.length
  | none => filename

/-- Function `generateMockMarkdown` from `convert.ts`. -/
def generateMockMarkdown (filename : String) : String :=
  let baseName := stripDocExtension filename
  "# " ++ baseName ++
  "\n\n## Overview\n\nThis document contains important information about " ++
  baseName.toLower ++
  ".\n\n## Key Points\n\n- Point 1: Lorem ipsum dolor sit amet, consectetur adipiscing elit.\n- Point 2: Sed do eiusmod tempor incididunt ut labore et dolore magna aliqua.\n- Point 3: Ut enim ad minim veniam, quis nostrud exercitation ullamco.\n\n## Details\n\n### Section 1\n\nDuis aute irure dolor in reprehenderit in voluptate velit esse cillum dolore eu fugiat nulla pariatur.\n\n### Section 2\n\nExcepteur sint occaecat cupidatat non proident, sunt in culpa qui officia deserunt mollit anim id est laborum.\n\n## Conclusion\n\nThis document provides comprehensive guidance on " ++
  baseName.toLower ++ " procedures and policies.\n"

/-- Loop body of `chunkArray` (`for (i = 0; i < length; i += size)`),
written with an explicit iteration bound so that it is structurally
recursive and computable by the kernel: with a positive `size` the loop
runs at most `array.length` iterations, each consuming the next
`size`-element slice. -/
def chunkArrayGo {α : Type} : Nat → List α → Nat → List (List α)
  | 0, _, _ => []
  | _ + 1, [], _ => []
  | fuel + 1, a :: as, size => ((a :: as).take size) :: chunkArrayGo fuel ((a :: as).drop size) size

/-- Function `chunkArray` from `guideGeneration.ts`: slices of `size` elements
taken at offsets 0, size, 2·size, …  (With `size = 0` the JS loop never
terminates; the embedding returns `[]` there and every property below
assumes a positive size, as the spec's scenario does.) -/
def chunkArray {α : Type} (array : List α) (size : Nat) : List (List α) :=
  if size = 0 then [] else chunkArrayGo array.length array size

/-- Constant `CHUNK_SIZE = 100` from `guideGeneration.ts`. -/
def CHUNK_SIZE : Nat := 100

/-- Constant `MAX_CONCURRENT_CHILDREN = 10` from `guideGeneration.ts`.  (The
throttling batches of `executeChildrenThrottled` do not reorder the
per-chunk settlement events in the sequential trace model below.) -/
def MAX_CONCURRENT_CHILDREN : Nat := 10

/-- How a `GuideStatus` value prints inside template strings
(the Prisma enum member name). -/
def GuideStatus.dbName : GuideStatus → String
  | .pending => "pending"
  | .searching => "searching"
  | .generating => "generating"
  | .completed => "completed"
  | .needs_attention => "needs_attention"

/-- How a `FileStatus` value prints inside template strings. -/
def FileStatus.dbName : FileStatus → String
  | .pending => "pending"
  | .converting => "converting"
  | .converted => "converted"
  | .failed => "failed"

/-- Function `generateMockHTML` from `generate.ts` (full-quality output). -/
def generateMockHTML (guideName description : String) (sources : List SearchResult) : String :=
  let safeName := escapeHtml guideName
  let safeDesc := escapeHtml description
  "<!DOCTYPE html>\n<html lang=\"en\">\n<head>\n  <meta charset=\"UTF-8\">\n  <meta name=\"viewport\" content=\"width=device-width, initial-scale=1.0\">\n  <title>" ++
  safeName ++
  "</title>\n  <style>\n    body \x7b font-family: system-ui, sans-serif; max-width: 800px; margin: 0 auto; padding: 2rem; \x7d\n    h1 \x7b color: #1a1a1a; border-bottom: 2px solid #e5e5e5; padding-bottom: 0.5rem; \x7d\n    h2 \x7b color: #333; margin-top: 2rem; \x7d\n    .description \x7b color: #666; font-style: italic; margin-bottom: 2rem; \x7d\n    .content \x7b line-height: 1.6; \x7d\n    .sources \x7b background: #f5f5f5; padding: 1rem; border-radius: 8px; margin-top: 2rem; \x7d\n    .sources h3 \x7b margin-top: 0; \x7d\n    .sources ul \x7b margin: 0; padding-left: 1.5rem; \x7d\n  </style>\n</head>\n<body>\n  <h1>" ++
  safeName ++ "</h1>\n  <p class=\"description\">" ++ safeDesc ++
  "</p>\n\n  <div class=\"content\">\n    <h2>Overview</h2>\n    <p>This guide provides step-by-step instructions for " ++
  safeName.toLower ++
  ". Follow these procedures to ensure compliance with company policies and best practices.</p>\n\n    <h2>Prerequisites</h2>\n    <ul>\n      <li>Access to the company intranet</li>\n      <li>Valid employee credentials</li>\n      <li>Completion of required training modules</li>\n    </ul>\n\n    <h2>Step-by-Step Instructions</h2>\n    <ol>\n      <li><strong>Step 1:</strong> Review the relevant documentation and policies.</li>\n      <li><strong>Step 2:</strong> Gather all necessary information and materials.</li>\n      <li><strong>Step 3:</strong> Follow the standard operating procedure.</li>\n      <li><strong>Step 4:</strong> Document your actions and outcomes.</li>\n      <li><strong>Step 5:</strong> Submit for review if required.</li>\n    </ol>\n\n    <h2>Important Notes</h2>\n    <p>Always ensure you have the latest version of relevant policies before proceeding. Contact your supervisor if you have any questions or concerns.</p>\n  </div>\n\n  <div class=\"sources\">\n    <h3>Source Documents</h3>\n    <ul>\n      " ++
  String.intercalate "\n      "
    (sources.map (fun s =>
      "<li>" ++ escapeHtml s.filename ++ " (" ++ toString s.relevancePct ++ "% relevant)</li>")) ++
  "\n    </ul>\n  </div>\n</body>\n</html>"

/-- Function `generateSkeletonHTML` from `generate.ts`: the clearly-labeled
placeholder emitted on degraded attempts and failure cleanups. -/
def generateSkeletonHTML (guideName description : String) : String :=
  let safeName := escapeHtml guideName
  let safeDesc := escapeHtml description
  "<!DOCTYPE html>\n<html lang=\"en\">\n<head>\n  <meta charset=\"UTF-8\">\n  <title>" ++
  safeName ++
  " - Needs Review</title>\n  <style>\n    body \x7b font-family: system-ui, sans-serif; max-width: 800px; margin: 0 auto; padding: 2rem; \x7d\n    .warning \x7b background: #fff3cd; border: 1px solid #ffc107; padding: 1rem; border-radius: 8px; margin-bottom: 2rem; \x7d\n  </style>\n</head>\n<body>\n  <div class=\"warning\">\n    <strong>⚠️ This guide requires manual review</strong>\n    <p>Automatic generation encountered issues. Please review and complete this guide manually.</p>\n  </div>\n  <h1>" ++
  safeName ++ "</h1>\n  <p>" ++ safeDesc ++
  "</p>\n  <h2>Content</h2>\n  <p><em>[Content generation incomplete - manual input required]</em></p>\n</body>\n</html>"

/-- The outcome of one `mockSearch` call: the call either throws
(service failure) or returns a — possibly empty — result list. -/
inductive SearchOutcome
  | fail (msg : String)
  | results (rs : List SearchResult)
  deriving DecidableEq, Repr

/-- The outcome of the mocked generation step: success, or a thrown
`Generation service temporarily unavailable`-style error. -/
inductive GenOutcome
  | ok
  | fail (msg : String)
  deriving DecidableEq, Repr

/-- Nondeterministic inputs of one `processGuide` activity execution:
its processing token, the clock at lease acquisition, the outcomes of
the mocked external calls, and the random pick among the force-failure
reasons. -/
structure GuideEnv where
  token : String
  now : Int
  search : SearchOutcome
  gen : GenOutcome
  reasonIdx : Fin 3
  deriving DecidableEq, Repr

/-- Nondeterministic inputs of one `convertFile` activity execution. -/
structure FileEnv where
  token : String
  now : Int
  convFails : Bool
  deriving DecidableEq, Repr

/-- Errors thrown by the activities: the distinguished `LeaseHeldError`
versus an ordinary `Error`. -/
inductive ActivityError
  | leaseHeld (msg : String)
  | generic (msg : String)
  deriving DecidableEq, Repr

/-- The `failureReasons` array of the force-failure demo path. -/
def forceFailureReasons : List String :=
  ["We couldn\x27t find relevant content in your documents for this guide.",
   "Search service returned no matching documents for this topic.",
   "The source documents do not contain sufficient information for this guide."]

/-- Selection `failureReasons[Math.floor(Math.random() * failureReasons.length)]`;
the index is always in bounds, so the default is never used. -/
def pickForceFailureReason (i : Fin 3) : String :=
  forceFailureReasons.getD i.val ""

/-- The expired-lease disjunct of the guide lease-acquire `where` clause:
`processingHeartbeatAt < leaseExpiry`, or `processingHeartbeatAt` null
and `processingStartedAt < leaseExpiry` (Prisma `lt` never matches a
null column). -/
def guideLeaseExpired (g : Guide) (leaseExpiry : Int) : Bool :=
  (match g.processingHeartbeatAt with
   | some hb => decide (hb < leaseExpiry)
   | none => false) ||
  (g.processingHeartbeatAt.isNone &&
   (match g.processingStartedAt with
    | some st => decide (st < leaseExpiry)
    | none => false))

/-- The guide lease-acquire source-status condition (`baseConditions` in
`processGuideInternal`): `pending`, for a manual retry also
`needs_attention`, or an in-progress status whose lease has expired. -/
def guideAcquirable (g : Guide) (isManualRetry : Bool) (leaseExpiry : Int) : Bool :=
  decide (g.status = .pending) ||
  (isManualRetry && decide (g.status = .needs_attention)) ||
  ((decide (g.status = .searching) || decide (g.status = .generating)) &&
    guideLeaseExpired g leaseExpiry)

/-- The expired-lease condition of the file lease-acquire `where` clause
(`processingStartedAt < leaseExpiry`; files have no heartbeat column). -/
def fileLeaseExpired (f : File) (leaseExpiry : Int) : Bool :=
  match f.processingStartedAt with
  | some st => decide (st < leaseExpiry)
  | none => false

/-- Lines 144–159 of `convert.ts`: the token-conditioned terminal write
of a successful conversion.  On a token mismatch nothing is written and
the result reports whether the currently recorded status is `converted`. -/
def finalizeFileConverted (f : File) (token : String) (markdown : String) : File × Bool :=
  if f.processingToken = some token then
    ({ f with status := .converted, markdownContent := some markdown, processingToken := none },
     true)
  else
    (f, decide (f.status = .converted))

/-- Lines 483–498 of `generate.ts`: the token-conditioned terminal write
of a successfully generated guide.  On a token mismatch nothing is
written and the result reports whether the currently recorded status is
`completed`. -/
def finalizeGuideCompleted (g : Guide) (token : String) (html : String) : Guide × Bool :=
  if g.processingToken = some token then
    ({ g with
        status := GuideStatus.completed, htmlContent := some html,
        processingToken := none, processingStartedAt := none, processingHeartbeatAt := none },
     true)
  else
    (g, decide (g.status = .completed))

/-- Activity `convertFile` from `convert.ts`, as a function of the file row and
the activity's nondeterministic inputs.  (The `File not found` throw is
outside the embedding: the row is a parameter.) -/
def convertFile (fileId : String) (f : File) (env : FileEnv) : File × Except ActivityError Bool :=
  -- idempotency guard
  if f.status = .converted ∧ strTruthy f.markdownContent then (f, .ok true)
  else if f.status = .failed then (f, .ok false)
  else
    let leaseExpiry := env.now - LEASE_EXPIRY_MS
    if f.status = .pending ∨ (f.status = .converting ∧ fileLeaseExpired f leaseExpiry) then
      -- lease acquired
      let f1 : File := { f with
        status := FileStatus.converting, processingToken := some env.token,
        processingStartedAt := some env.now }
      if env.convFails then
        let f2 := if f1.processingToken = some env.token then
            { f1 with
              status := FileStatus.failed,
              errorMessage := some "Document conversion failed: Unable to parse file format",
              processingToken := none }
          else f1
        (f2, .ok false)
      else
        let r := finalizeFileConverted f1 env.token (generateMockMarkdown f.filename)
        (r.1, .ok r.2)
    else
      -- zero rows updated: re-read and classify
      if f.status = .converted then (f, .ok true)
      else if f.status = .failed then (f, .ok false)
      else
        (f, .error (.leaseHeld ("File " ++ fileId ++ " is in progress (status: " ++
          f.status.dbName ++ "), lease held by another worker")))

/-- The tail of `processGuideInternal` after the search step produced
`searchResults` (empty-result check, transition to `generating`, and the
generation step).  `g1` is the row as written by the lease acquisition;
`token` and `gen` are the only nondeterministic inputs this tail reads. -/
def guideAfterSearch (g1 : Guide) (attempt : Nat) (canReuseSearch : Bool)
    (searchResults : List SearchResult) (token : String) (gen : GenOutcome) :
    Guide × Except ActivityError Bool :=
  if searchResults.isEmpty then
    let g2 := if g1.processingToken = some token then
        { g1 with
          status := GuideStatus.needs_attention,
          failureReason :=
            some "We couldn\x27t find relevant content in your documents for this guide.",
          searchResults := some [],
          processingToken := none, processingStartedAt := none, processingHeartbeatAt := none }
      else g1
    (g2, .ok false)
  else
    -- transition to generating, keeping the lease; cached results are
    -- not overwritten when they were reused
    let g2 := if g1.processingToken = some token then
        (if canReuseSearch then { g1 with status := GuideStatus.generating }
         else { g1 with
                status := GuideStatus.generating, searchResults := some searchResults })
      else g1
    match gen with
    | .ok =>
      let html := if attempt = 1 then generateMockHTML g1.name g1.description searchResults
        else if attempt = 2 then generateMockHTML g1.name g1.description (searchResults.take 2)
        else generateSkeletonHTML g1.name g1.description
      let r := finalizeGuideCompleted g2 token html
      (r.1, .ok r.2)
    | .fail msg =>
      if attempt < 3 then
        let g3 := if g2.processingToken = some token then
            { g2 with
              status := GuideStatus.pending, processingToken := none,
              processingStartedAt := none, processingHeartbeatAt := none,
              failureDetails := some (FailureDetails.lastErrorAttempt msg attempt) }
          else g2
        (g3, .error (.generic msg))
      else
        let g3 := if g2.processingToken = some token then
            { g2 with
              status := GuideStatus.needs_attention,
              failureReason :=
                some "Generation failed after multiple attempts. The content may need manual review.",
              failureDetails := some (FailureDetails.errorAttempts msg attempt),
              htmlContent := some (generateSkeletonHTML g1.name g1.description),
              processingToken := none, processingStartedAt := none, processingHeartbeatAt := none }
          else g2
        (g3, .ok false)

/-- Function `processGuideInternal` from `generate.ts`: lease acquisition, the
force-failure demo path, the search step (with cached-result reuse), and
`guideAfterSearch`. -/
def processGuideInternal (guideId : String) (g : Guide) (attempt : Nat) (isManualRetry : Bool)
    (env : GuideEnv) : Guide × Except ActivityError Bool :=
  let leaseExpiry := env.now - LEASE_EXPIRY_MS
  if guideAcquirable g isManualRetry leaseExpiry then
    let g1 : Guide := { g with
      status := GuideStatus.searching, attempts := attempt,
      processingToken := some env.token, processingStartedAt := some env.now,
      processingHeartbeatAt := some env.now }
    if g.forceFailure then
      let g2 := if g1.processingToken = some env.token then
          { g1 with
            status := GuideStatus.needs_attention,
            failureReason := some (pickForceFailureReason env.reasonIdx),
            searchResults := some [],
            htmlContent := some (generateSkeletonHTML g.name g.description),
            processingToken := none, processingStartedAt := none, processingHeartbeatAt := none }
        else g1
      (g2, .ok false)
    else
      let canReuseSearch := decide (attempt > 1) && hasNonEmptySearchResults g.searchResults
      if canReuseSearch then
        guideAfterSearch g1 attempt true (g.searchResults.getD []) env.token env.gen
      else
        match env.search with
        | .fail msg =>
          if attempt < 3 then
            let g2 := if g1.processingToken = some env.token then
                { g1 with
                  status := GuideStatus.pending, processingToken := none,
                  processingStartedAt := none, processingHeartbeatAt := none,
                  searchResults := some [],
                  failureDetails := some (FailureDetails.lastErrorAttempt msg attempt) }
              else g1
            (g2, .error (.generic msg))
          else
            let g2 := if g1.processingToken = some env.token then
                { g1 with
                  status := GuideStatus.needs_attention,
                  failureReason := some "Search service unavailable after multiple attempts.",
                  failureDetails := some (FailureDetails.errorAttempts msg attempt),
                  processingToken := none, processingStartedAt := none,
                  processingHeartbeatAt := none }
              else g1
            (g2, .ok false)
        | .results rs => guideAfterSearch g1 attempt false rs env.token env.gen
  else
    -- zero rows updated: re-read and classify
    if g.status = .completed then (g, .ok true)
    else if g.status = .needs_attention then (g, .ok false)
    else
      (g, .error (.leaseHeld ("Guide " ++ guideId ++ " is in progress (status: " ++
        g.status.dbName ++ "), lease held by another worker")))

/-- Activity `processGuide` from `generate.ts`: idempotency guard, call of
`processGuideInternal`, and the outer catch that always rethrows
`LeaseHeldError`, rethrows ordinary errors while `attempt < 3`, and
otherwise performs the catastrophic-failure cleanup write. -/
def processGuide (guideId : String) (g : Guide) (isManualRetry : Bool) (env : GuideEnv) :
    Guide × Except ActivityError Bool :=
  if g.status = .completed ∧ strTruthy g.htmlContent then (g, .ok true)
  else if g.status = .needs_attention ∧ isManualRetry = false then (g, .ok false)
  else
    let attempt := g.attempts + 1
    match processGuideInternal guideId g attempt isManualRetry env with
    | (g1, .ok r) => (g1, .ok r)
    | (g1, .error (.leaseHeld msg)) => (g1, .error (.leaseHeld msg))
    | (g1, .error (.generic msg)) =>
      if attempt < 3 then (g1, .error (.generic msg))
      else
        let data := fun (x : Guide) =>
          { x with
            status := GuideStatus.needs_attention,
            failureReason := some "Processing failed unexpectedly. Please try again.",
            failureDetails := some (FailureDetails.errorAttempts msg attempt),
            htmlContent := some (generateSkeletonHTML g.name g.description),
            processingToken := none, processingStartedAt := none, processingHeartbeatAt := none }
        let g2 := if g1.processingToken = some env.token then data g1
          else if g1.processingToken = none ∧
              (g1.status = .pending ∨ g1.status = .searching ∨ g1.status = .generating) then
            data g1
          else g1
        (g2, .ok false)

/-- Run status enum (the members used by the worker activities). -/
inductive RunStatus
  | pending
  | processing
  | completed
  | completed_with_errors
  | failed
  deriving DecidableEq, Repr

/-- Run stage enum (the members used by the worker activities). -/
inductive RunStage
  | converting_documents
  | writing_guides
  | complete
  deriving DecidableEq, Repr

/-- The run-row fields written by `refinalizeRun`. -/
structure RunUpdate where
  status : RunStatus
  stage : RunStage
  completedGuides : Nat
  failedGuides : Nat
  completedAt : Option Int
  deriving DecidableEq, Repr

/-- Activity `refinalizeRun` from `db.ts`, as a function of the multiset of the
run's guide statuses (the `groupBy` counts) and the clock. -/
def refinalizeRun (statuses : List GuideStatus) (now : Int) : RunUpdate :=
  let completed := statuses.count GuideStatus.completed
  let needsAttention := statuses.count GuideStatus.needs_attention
  let pending := statuses.count GuideStatus.pending
  let inProgress := statuses.count GuideStatus.searching + statuses.count GuideStatus.generating
  let sts : RunStatus × RunStage :=
    if pending > 0 ∨ inProgress > 0 then (.processing, .writing_guides)
    else if needsAttention > 0 then (.completed_with_errors, .complete)
    else (.completed, .complete)
  { status := sts.1, stage := sts.2, completedGuides := completed, failedGuides := needsAttention,
    completedAt := if sts.2 = RunStage.complete then some now else none }

/-- A child-workflow chunk result (`FileChunkResult`/`GuideChunkResult`). -/
structure ChunkResult where
  success : Nat
  failed : Nat
  deriving DecidableEq, Repr

/-- Events of the orchestrator trace: stage writes, the settlement of a
dispatched child chunk workflow (a chunk is dispatched and settles
within `executeChildrenThrottled` before the next stage starts),
`markRunFailed`, and the final reconciliation. -/
inductive WfEvent
  | updateRunStage (stage : RunStage)
  | fileChunkSettled (index : Nat) (ok : Bool)
  | guideChunkSettled (index : Nat) (ok : Bool)
  | markRunFailed (message : String)
  | refinalizeRunCall
  deriving DecidableEq, Repr

/-- An event is the dispatch/settlement of a guide-generation chunk. -/
def WfEvent.isGuideDispatch : WfEvent → Bool
  | .guideChunkSettled _ _ => true
  | _ => false

/-- An event is the settlement of a file-conversion chunk. -/
def WfEvent.isFileSettle : WfEvent → Bool
  | .fileChunkSettled _ _ => true
  | _ => false

/-- Workflow `guideGenerationWorkflow` from `guideGeneration.ts` as a sequential
event trace.  `fileOutcome i` / `guideOutcome i` is the settlement of
chunk `i`'s child workflow: `ok` a fulfilled `ChunkResult`, `error` a
rejected execution.  `Promise.allSettled` never rejects, so every chunk
of a stage settles before the stage's aggregation runs. -/
def guideGenerationWorkflow (fileIds guideIds : List String)
    (fileOutcome : Nat → Except String ChunkResult)
    (guideOutcome : Nat → Except String ChunkResult) : List WfEvent :=
  let fileChunks := chunkArray fileIds CHUNK_SIZE
  let stage1 : List WfEvent :=
    WfEvent.updateRunStage .converting_documents ::
      (List.range fileChunks.length).map
        (fun i => WfEvent.fileChunkSettled i (fileOutcome i).isOk)
  let fileChunkFailures :=
    (List.range fileChunks.length).countP (fun i => !(fileOutcome i).isOk)
  if fileChunkFailures > 0 then
    stage1 ++ [WfEvent.markRunFailed
      (toString fileChunkFailures ++ " file processing chunk(s) failed unexpectedly")]
  else
    let guideChunks := chunkArray guideIds CHUNK_SIZE
    let stage2 : List WfEvent :=
      WfEvent.updateRunStage .writing_guides ::
        (List.range guideChunks.length).map
          (fun i => WfEvent.guideChunkSettled i (guideOutcome i).isOk)
    let guideChunkFailures :=
      (List.range guideChunks.length).countP (fun i => !(guideOutcome i).isOk)
    if guideChunkFailures > 0 then
      stage1 ++ stage2 ++ [WfEvent.markRunFailed
        (toString guideChunkFailures ++ " guide processing chunk(s) failed unexpectedly")]
    else
      stage1 ++ stage2 ++ [WfEvent.refinalizeRunCall]

/-- A concrete search result, used to instantiate theorems. -/
def sampleResult : SearchResult :=
  { fileId := "file-1", filename := "doc.pdf", snippet := "snippet", relevancePct := 95 }

/-- A concrete fresh guide row (pending, no lease, no cached output). -/
def baseGuide : Guide :=
  { name := "Guide", description := "Desc", status := .pending, searchResults := none,
    htmlContent := none, failureReason := none, failureDetails := none,
    attempts := 0, forceFailure := false, processingToken := none,
    processingStartedAt := none, processingHeartbeatAt := none }

/-- A concrete fresh file row. -/
def baseFile : File :=
  { filename := "doc.pdf", status := .pending, markdownContent := none, errorMessage := none,
    processingToken := none, processingStartedAt := none }

/-- A concrete activity environment where both external calls succeed. -/
def baseEnv : GuideEnv :=
  { token := "wf-1:act-1:1", now := 10000000, search := .results [sampleResult],
    gen := .ok, reasonIdx := 0 }

/-- A concrete file-activity environment where conversion succeeds. -/
def baseFileEnv : FileEnv :=
  { token := "wf-1:act-1:1", now := 10000000, convFails := false }

/-- A concrete file row already converted with populated output. -/
def convertedFile : File :=
  { baseFile with status := .converted, markdownContent := some "# doc" }

/-- A concrete guide row already completed with populated output. -/
def completedGuide : Guide :=
  { baseGuide with status := .completed, htmlContent := some "<p>done</p>" }

/-- A concrete file row mid-conversion under another worker's fresh
lease (acquired at `baseFileEnv.now`, so not expired). -/
def inProgressFile : File :=
  { baseFile with
    status := .converting, processingToken := some "other-worker:act:1",
    processingStartedAt := some 10000000 }

/-- A concrete guide row mid-search under another worker's fresh lease. -/
def inProgressGuide : Guide :=
  { baseGuide with
    status := .searching, processingToken := some "other-worker:act:1",
    processingStartedAt := some 10000000, processingHeartbeatAt := some 10000000 }

/-- A concrete pending guide entering its third attempt with cached
search results. -/
def attempt3Guide : Guide :=
  { baseGuide with attempts := 2, searchResults := some [sampleResult] }

/-- A concrete pending guide entering its second attempt with cached
search results. -/
def cachedGuide : Guide :=
  { baseGuide with attempts := 1, searchResults := some [sampleResult] }

/-- A concrete pending guide flagged for forced failure. -/
def forcedFailureGuide : Guide :=
  { baseGuide with forceFailure := true }

/-- With enough fuel, flattening the chunks returns the original list. -/
theorem chunkArrayGo_flatten {α : Type} (fuel : Nat) (l : List α) (size : Nat)
    (hfuel : l.length ≤ fuel) (hs : 0 < size) :
    (chunkArrayGo fuel l size).flatten = l := by
  induction fuel generalizing l with
  | zero =>
    have : l = [] := List.eq_nil_of_length_eq_zero (Nat.le_zero.mp hfuel)
    simp [this, chunkArrayGo]
  | succ n ih =>
    match l with
    | [] => simp [chunkArrayGo]
    | a :: as =>
      have hdrop : ((a :: as).drop size).length ≤ n := by
        simp only [List.length_drop, List.length_cons] at *
        omega
      simp [chunkArrayGo, ih ((a :: as).drop size) hdrop]

/-- Flattening the chunks returns the original list, for positive chunk
size. -/
theorem chunkArray_flatten {α : Type} (l : List α) (size : Nat) (hs : 0 < size) :
    (chunkArray l size).flatten = l := by
  unfold chunkArray
  rw [if_neg (Nat.pos_iff_ne_zero.mp hs)]
  exact chunkArrayGo_flatten l.length l size (Nat.le_refl _) hs

set_option maxRecDepth 8000 in
/-- C9: 250 IDs chunked at size 100 give exactly 3 chunks of sizes
[100, 100, 50], and for every list and every positive chunk size the
concatenation of the chunks in order is the original list. -/
theorem chunkArray_scenarioD_and_order :
    ((chunkArray (List.range 250) 100).map List.length = [100, 100, 50]) ∧
    ∀ (α : Type) (l : List α) (size : Nat), 0 < size → (chunkArray l size).flatten = l := by
  constructor
  · decide
  · intro α l size hs
    exact chunkArray_flatten l size hs

/-- Witness for C9: the universally quantified part applied at a concrete
list and chunk size. -/
theorem chunkArray_scenarioD_and_order_witness :
    (0 < 2) ∧ (chunkArray [10, 20, 30] 2).flatten = [10, 20, 30] :=
  ⟨by decide, chunkArray_scenarioD_and_order.2 Nat [10, 20, 30] 2 (by decide)⟩

/-- A `convertFile` call on a file already recorded `converted` changes
nothing and reports success, whatever `markdownContent` holds: either
the idempotency guard fires, or the lease acquisition matches zero rows
and the re-read classifies the file as converted. -/
theorem convertFile_converted (fileId : String) (f : File) (env : FileEnv)
    (hf : f.status = .converted) : convertFile fileId f env = (f, .ok true) := by
  unfold convertFile
  split_ifs <;> simp_all

/-- Running `processGuideInternal` on a guide already recorded `completed`:
no acquisition condition matches, and the re-read reports success. -/
theorem processGuideInternal_completed (guideId : String) (g : Guide) (attempt : Nat)
    (m : Bool) (env : GuideEnv) (hg : g.status = .completed) :
    processGuideInternal guideId g attempt m env = (g, .ok true) := by
  unfold processGuideInternal guideAcquirable
  split_ifs <;> simp_all

/-- A `processGuide` call on a guide already recorded `completed` changes
nothing and reports success. -/
theorem processGuide_completed (guideId : String) (g : Guide) (m : Bool) (env : GuideEnv)
    (hg : g.status = .completed) : processGuide guideId g m env = (g, .ok true) := by
  unfold processGuide
  dsimp only
  rw [processGuideInternal_completed guideId g (g.attempts + 1) m env hg]
  split_ifs <;> simp_all

/-- C1: an item already in its success-terminal state with populated
output (file: converted with non-null markdown; guide: completed with
non-null html) is left untouched by `convertFile` / `processGuide`, the
call returns success, and a second call returns the same success result
on the unchanged row. -/
theorem success_terminal_rerun_idempotent (fileId guideId : String) (f : File) (g : Guide)
    (envF envF2 : FileEnv) (envG envG2 : GuideEnv) (m m2 : Bool)
    (hf : f.status = .converted) (hfc : f.markdownContent ≠ none)
    (hg : g.status = .completed) (hgc : g.htmlContent ≠ none) :
    convertFile fileId f envF = (f, .ok true) ∧
    convertFile fileId (convertFile fileId f envF).1 envF2 = (f, .ok true) ∧
    processGuide guideId g m envG = (g, .ok true) ∧
    processGuide guideId (processGuide guideId g m envG).1 m2 envG2 = (g, .ok true) := by
  have c1 := convertFile_converted fileId f envF hf
  have c2 := convertFile_converted fileId f envF2 hf
  have p1 := processGuide_completed guideId g m envG hg
  have p2 := processGuide_completed guideId g m2 envG2 hg
  refine ⟨c1, ?_, p1, ?_⟩
  · rw [c1]; exact c2
  · rw [p1]; exact p2

/-- Witness for C1 at a concrete converted file and completed guide. -/
theorem success_terminal_rerun_idempotent_witness :
    convertedFile.status = FileStatus.converted ∧ completedGuide.htmlContent ≠ none ∧
    convertFile "f1" convertedFile baseFileEnv = (convertedFile, .ok true) ∧
    processGuide "g1" completedGuide false baseEnv = (completedGuide, .ok true) :=
  ⟨by decide, by decide,
   (success_terminal_rerun_idempotent "f1" "g1" convertedFile completedGuide baseFileEnv
      baseFileEnv baseEnv baseEnv false false (by decide) (by decide) (by decide) (by decide)).1,
   (success_terminal_rerun_idempotent "f1" "g1" convertedFile completedGuide baseFileEnv
      baseFileEnv baseEnv baseEnv false false (by decide) (by decide) (by decide)
      (by decide)).2.2.1⟩

/-- C2: when the lease-acquire update matches zero rows and the item is
still in a non-terminal in-progress state with a non-expired lease, the
activity raises `LeaseHeldError`, leaves the row untouched (so the
attempt counter is not consumed and no `needs_attention` is written),
and the error is rethrown past the outer catch whatever the attempt
counter holds. -/
theorem lease_contention_rethrown (fileId guideId : String) (f : File) (g : Guide)
    (m : Bool) (envF : FileEnv) (envG : GuideEnv)
    (hf : f.status = .converting)
    (hfl : fileLeaseExpired f (envF.now - LEASE_EXPIRY_MS) = false)
    (hg : g.status = .searching ∨ g.status = .generating)
    (hgl : guideLeaseExpired g (envG.now - LEASE_EXPIRY_MS) = false) :
    convertFile fileId f envF =
      (f, .error (.leaseHeld ("File " ++ fileId ++ " is in progress (status: " ++
        f.status.dbName ++ "), lease held by another worker"))) ∧
    processGuide guideId g m envG =
      (g, .error (.leaseHeld ("Guide " ++ guideId ++ " is in progress (status: " ++
        g.status.dbName ++ "), lease held by another worker"))) := by
  constructor
  · unfold convertFile
    split_ifs <;> simp_all
  · have hint : processGuideInternal guideId g (g.attempts + 1) m envG =
        (g, .error (.leaseHeld ("Guide " ++ guideId ++ " is in progress (status: " ++
          g.status.dbName ++ "), lease held by another worker"))) := by
      unfold processGuideInternal guideAcquirable
      rcases hg with h | h <;> split_ifs <;> simp_all
    unfold processGuide
    dsimp only
    rw [hint]
    split_ifs <;> rcases hg with h | h <;> simp_all

/-- Witness for C2 at a concrete in-progress file and guide with fresh
leases. -/
theorem lease_contention_rethrown_witness :
    inProgressFile.status = FileStatus.converting ∧
    inProgressGuide.status = GuideStatus.searching ∧
    convertFile "f1" inProgressFile baseFileEnv =
      (inProgressFile, .error (.leaseHeld
        "File f1 is in progress (status: converting), lease held by another worker")) ∧
    processGuide "g1" inProgressGuide false baseEnv =
      (inProgressGuide, .error (.leaseHeld
        "Guide g1 is in progress (status: searching), lease held by another worker")) :=
  ⟨by decide, by decide,
   (lease_contention_rethrown "f1" "g1" inProgressFile inProgressGuide false baseFileEnv baseEnv
      (by decide) (by decide) (Or.inl (by decide)) (by decide)).1,
   (lease_contention_rethrown "f1" "g1" inProgressFile inProgressGuide false baseFileEnv baseEnv
      (by decide) (by decide) (Or.inl (by decide)) (by decide)).2⟩

/-- C3: a finalize attempt whose held token no longer matches the row's
stored processing token writes nothing, and its return value reports the
currently recorded final status (success iff the row is in its
success-terminal state), not the in-hand result. -/
theorem stale_finalize_reports_recorded_status (f : File) (g : Guide)
    (tf tg markdown html : String)
    (hf : f.processingToken ≠ some tf) (hg : g.processingToken ≠ some tg) :
    (finalizeFileConverted f tf markdown).1 = f ∧
    ((finalizeFileConverted f tf markdown).2 = true ↔ f.status = .converted) ∧
    (finalizeGuideCompleted g tg html).1 = g ∧
    ((finalizeGuideCompleted g tg html).2 = true ↔ g.status = .completed) := by
  unfold finalizeFileConverted finalizeGuideCompleted
  rw [if_neg hf, if_neg hg]
  simp

/-- Witness for C3 at concrete rows holding a different worker's token. -/
theorem stale_finalize_reports_recorded_status_witness :
    inProgressFile.processingToken ≠ some "stale-token" ∧
    (finalizeFileConverted inProgressFile "stale-token" "# md").1 = inProgressFile ∧
    ((finalizeGuideCompleted inProgressGuide "stale-token" "<p>x</p>").2 = true ↔
      inProgressGuide.status = GuideStatus.completed) :=
  ⟨by decide,
   (stale_finalize_reports_recorded_status inProgressFile inProgressGuide "stale-token"
      "stale-token" "# md" "<p>x</p>" (by decide) (by decide)).1,
   (stale_finalize_reports_recorded_status inProgressFile inProgressGuide "stale-token"
      "stale-token" "# md" "<p>x</p>" (by decide) (by decide)).2.2.2⟩

/-- C7: the reconciler derives the run record from the distribution of
guide statuses: `processing`/`writing_guides` if any guide is pending,
searching or generating; otherwise `completed_with_errors` if any guide
is `needs_attention`, else `completed`; it writes the counts of
completed and `needs_attention` guides, and the completion timestamp is
non-null exactly when a terminal run status is reached. -/
theorem refinalizeRun_derives_from_statuses (statuses : List GuideStatus) (now : Int) :
    ((∃ s ∈ statuses, s = GuideStatus.pending ∨ s = GuideStatus.searching ∨
        s = GuideStatus.generating) →
      (refinalizeRun statuses now).status = RunStatus.processing ∧
      (refinalizeRun statuses now).stage = RunStage.writing_guides) ∧
    ((¬ ∃ s ∈ statuses, s = GuideStatus.pending ∨ s = GuideStatus.searching ∨
        s = GuideStatus.generating) →
      ((∃ s ∈ statuses, s = GuideStatus.needs_attention) →
        (refinalizeRun statuses now).status = RunStatus.completed_with_errors ∧
        (refinalizeRun statuses now).stage = RunStage.complete) ∧
      ((¬ ∃ s ∈ statuses, s = GuideStatus.needs_attention) →
        (refinalizeRun statuses now).status = RunStatus.completed ∧
        (refinalizeRun statuses now).stage = RunStage.complete)) ∧
    (refinalizeRun statuses now).completedGuides = statuses.count GuideStatus.completed ∧
    (refinalizeRun statuses now).failedGuides = statuses.count GuideStatus.needs_attention ∧
    ((refinalizeRun statuses now).completedAt ≠ none ↔
      ((refinalizeRun statuses now).status = RunStatus.completed ∨
       (refinalizeRun statuses now).status = RunStatus.completed_with_errors)) := by
  by_cases h1 : GuideStatus.pending ∈ statuses ∨ GuideStatus.searching ∈ statuses ∨
      GuideStatus.generating ∈ statuses
  · have hru : refinalizeRun statuses now =
        { status := RunStatus.processing, stage := RunStage.writing_guides,
          completedGuides := statuses.count GuideStatus.completed,
          failedGuides := statuses.count GuideStatus.needs_attention,
          completedAt := none } := by
      simp [refinalizeRun, h1]
    rw [hru]
    refine ⟨fun _ => ⟨rfl, rfl⟩, fun hno => absurd ?_ hno, rfl, rfl, by simp⟩
    rcases h1 with h | h | h
    · exact ⟨GuideStatus.pending, h, Or.inl rfl⟩
    · exact ⟨GuideStatus.searching, h, Or.inr (Or.inl rfl)⟩
    · exact ⟨GuideStatus.generating, h, Or.inr (Or.inr rfl)⟩
  · have hnotin : ∀ s ∈ statuses, ¬(s = GuideStatus.pending ∨ s = GuideStatus.searching ∨
        s = GuideStatus.generating) := by
      intro s hs hcase
      apply h1
      rcases hcase with rfl | rfl | rfl
      · exact Or.inl hs
      · exact Or.inr (Or.inl hs)
      · exact Or.inr (Or.inr hs)
    by_cases h2 : GuideStatus.needs_attention ∈ statuses
    · have hru : refinalizeRun statuses now =
          { status := RunStatus.completed_with_errors, stage := RunStage.complete,
            completedGuides := statuses.count GuideStatus.completed,
            failedGuides := statuses.count GuideStatus.needs_attention,
            completedAt := some now } := by
        simp [refinalizeRun, h1, h2]
      rw [hru]
      refine ⟨fun hex => ?_, fun _ => ⟨fun _ => ⟨rfl, rfl⟩, fun hno =>
        absurd ⟨GuideStatus.needs_attention, h2, rfl⟩ hno⟩,
        rfl, rfl, by simp⟩
      obtain ⟨s, hs, hcase⟩ := hex
      exact absurd hcase (hnotin s hs)
    · have hru : refinalizeRun statuses now =
          { status := RunStatus.completed, stage := RunStage.complete,
            completedGuides := statuses.count GuideStatus.completed,
            failedGuides := statuses.count GuideStatus.needs_attention,
            completedAt := some now } := by
        simp [refinalizeRun, h1, h2]
      rw [hru]
      refine ⟨fun hex => ?_, fun _ => ⟨fun hex2 => ?_, fun _ => ⟨rfl, rfl⟩⟩, rfl, rfl, by simp⟩
      · obtain ⟨s, hs, hcase⟩ := hex
        exact absurd hcase (hnotin s hs)
      · obtain ⟨s, hs, hcase⟩ := hex2
        subst hcase
        exact absurd hs h2

/-- Witness for C7 at concrete status distributions exercising both the
in-progress and the terminal branches. -/
theorem refinalizeRun_derives_from_statuses_witness :
    ((refinalizeRun [GuideStatus.completed, GuideStatus.pending] 5).status =
      RunStatus.processing) ∧
    ((refinalizeRun [GuideStatus.completed, GuideStatus.needs_attention] 5).status =
      RunStatus.completed_with_errors) :=
  ⟨((refinalizeRun_derives_from_statuses [GuideStatus.completed, GuideStatus.pending] 5).1
      ⟨GuideStatus.pending, by decide, Or.inl rfl⟩).1,
   (((refinalizeRun_derives_from_statuses
        [GuideStatus.completed, GuideStatus.needs_attention] 5).2.1
      (by decide)).1 ⟨GuideStatus.needs_attention, by decide, rfl⟩).1⟩

/-- C8: in the orchestrator trace, no guide-generation chunk is
dispatched until every file-conversion chunk has settled (the trace
splits into a prefix holding all file settlements and no guide
dispatches, and a suffix with no file settlements); and if any
file-chunk sub-execution fails outright, the run is marked failed with
the descriptive message and no guide chunk is ever dispatched. -/
theorem workflow_two_stage_sequencing (fileIds guideIds : List String)
    (fOut gOut : Nat → Except String ChunkResult) :
    (∃ A B, guideGenerationWorkflow fileIds guideIds fOut gOut = A ++ B ∧
      (∀ e ∈ A, e.isGuideDispatch = false) ∧
      (∀ e ∈ B, e.isFileSettle = false) ∧
      ∀ i < (chunkArray fileIds CHUNK_SIZE).length,
        WfEvent.fileChunkSettled i (fOut i).isOk ∈ A) ∧
    ((∃ i < (chunkArray fileIds CHUNK_SIZE).length, (fOut i).isOk = false) →
      WfEvent.markRunFailed
          (toString ((List.range (chunkArray fileIds CHUNK_SIZE).length).countP
            (fun i => !(fOut i).isOk)) ++ " file processing chunk(s) failed unexpectedly") ∈
        guideGenerationWorkflow fileIds guideIds fOut gOut ∧
      ∀ e ∈ guideGenerationWorkflow fileIds guideIds fOut gOut, e.isGuideDispatch = false) := by
  set n := (chunkArray fileIds CHUNK_SIZE).length with hn
  set stage1 : List WfEvent := WfEvent.updateRunStage RunStage.converting_documents ::
      (List.range n).map (fun i => WfEvent.fileChunkSettled i (fOut i).isOk) with hs1
  have hA : ∀ e ∈ stage1, e.isGuideDispatch = false := by
    intro e he
    rcases List.mem_cons.mp he with rfl | hmap
    · rfl
    · obtain ⟨i, _, rfl⟩ := List.mem_map.mp hmap
      rfl
  have hAmem : ∀ i < n, WfEvent.fileChunkSettled i (fOut i).isOk ∈ stage1 := by
    intro i hi
    exact List.mem_cons_of_mem _ (List.mem_map.mpr ⟨i, List.mem_range.mpr hi, rfl⟩)
  by_cases hfail : 0 < (List.range n).countP (fun i => !(fOut i).isOk)
  · have htr : guideGenerationWorkflow fileIds guideIds fOut gOut =
        stage1 ++ [WfEvent.markRunFailed
          (toString ((List.range n).countP (fun i => !(fOut i).isOk)) ++
            " file processing chunk(s) failed unexpectedly")] := by
      simp only [guideGenerationWorkflow]
      rw [if_pos hfail]
    constructor
    · refine ⟨stage1, _, htr, hA, ?_, hAmem⟩
      intro e he
      rcases List.mem_singleton.mp he with rfl
      rfl
    · intro _
      constructor
      · rw [htr]
        exact List.mem_append_right _ (List.mem_singleton.mpr rfl)
      · intro e he
        rw [htr] at he
        rcases List.mem_append.mp he with h | h
        · exact hA e h
        · rcases List.mem_singleton.mp h with rfl
          rfl
  · set m := (chunkArray guideIds CHUNK_SIZE).length with hm
    set stage2 : List WfEvent := WfEvent.updateRunStage RunStage.writing_guides ::
        (List.range m).map (fun i => WfEvent.guideChunkSettled i (gOut i).isOk) with hs2
    have hB2 : ∀ e ∈ stage2, e.isFileSettle = false := by
      intro e he
      rcases List.mem_cons.mp he with rfl | hmap
      · rfl
      · obtain ⟨i, _, rfl⟩ := List.mem_map.mp hmap
        rfl
    have key : ∃ last : WfEvent, last.isFileSettle = false ∧
        guideGenerationWorkflow fileIds guideIds fOut gOut = stage1 ++ (stage2 ++ [last]) := by
      by_cases hgf : 0 < (List.range m).countP (fun i => !(gOut i).isOk)
      · refine ⟨WfEvent.markRunFailed (toString ((List.range m).countP
          (fun i => !(gOut i).isOk)) ++ " guide processing chunk(s) failed unexpectedly"),
          rfl, ?_⟩
        simp only [guideGenerationWorkflow]
        rw [if_neg hfail, if_pos hgf, List.append_assoc]
      · refine ⟨WfEvent.refinalizeRunCall, rfl, ?_⟩
        simp only [guideGenerationWorkflow]
        rw [if_neg hfail, if_neg hgf, List.append_assoc]
    obtain ⟨last, hlast, htr⟩ := key
    constructor
    · refine ⟨stage1, stage2 ++ [last], htr, hA, ?_, hAmem⟩
      intro e he
      rcases List.mem_append.mp he with h | h
      · exact hB2 e h
      · rcases List.mem_singleton.mp h with rfl
        exact hlast
    · intro hex
      exfalso
      apply hfail
      obtain ⟨i, hi, hio⟩ := hex
      exact List.countP_pos_iff.mpr ⟨i, List.mem_range.mpr hi, by simp [hio]⟩

/-- Witness for C8: a concrete run whose only file chunk's sub-execution
is rejected is marked failed with the descriptive message. -/
theorem workflow_two_stage_sequencing_witness :
    WfEvent.markRunFailed "1 file processing chunk(s) failed unexpectedly" ∈
      guideGenerationWorkflow ["f1"] ["g1"] (fun _ => .error "lost") (fun _ => .ok ⟨1, 0⟩) ∧
    ∀ e ∈ guideGenerationWorkflow ["f1"] ["g1"] (fun _ => .error "lost") (fun _ => .ok ⟨1, 0⟩),
      e.isGuideDispatch = false :=
  (workflow_two_stage_sequencing ["f1"] ["g1"] (fun _ => .error "lost")
    (fun _ => .ok ⟨1, 0⟩)).2 ⟨0, by decide, by decide⟩

/-- The tail `guideAfterSearch` only throws while the attempt budget remains
(`attempt < 3`), and what it throws is an ordinary error, never
`LeaseHeldError`. -/
theorem guideAfterSearch_error_lt3 (g1 : Guide) (a : Nat) (c : Bool) (l : List SearchResult)
    (tok : String) (gen : GenOutcome) (e : ActivityError)
    (h : (guideAfterSearch g1 a c l tok gen).2 = .error e) :
    a < 3 ∧ ∃ msg, e = .generic msg := by
  cases gen <;>
    · unfold guideAfterSearch at h
      split_ifs at h <;>
        · try simp_all
          try exact ⟨_, h.symm⟩

/-- On a pending, non-force-failure guide entering an attempt after the
first with non-empty cached search results, `processGuide` is exactly
the post-search tail applied to the freshly leased row and the cached
results: the search oracle is never consulted. -/
theorem processGuide_reuse (guideId : String) (g : Guide) (m : Bool) (env : GuideEnv)
    (h1 : g.status = .pending) (h2 : g.forceFailure = false) (h3 : 1 ≤ g.attempts)
    (h4 : hasNonEmptySearchResults g.searchResults = true) :
    processGuide guideId g m env =
      guideAfterSearch
        { g with
          status := .searching, attempts := g.attempts + 1,
          processingToken := some env.token, processingStartedAt := some env.now,
          processingHeartbeatAt := some env.now }
        (g.attempts + 1) true (g.searchResults.getD []) env.token env.gen := by
  have hint : processGuideInternal guideId g (g.attempts + 1) m env =
      guideAfterSearch
        { g with
          status := .searching, attempts := g.attempts + 1,
          processingToken := some env.token, processingStartedAt := some env.now,
          processingHeartbeatAt := some env.now }
        (g.attempts + 1) true (g.searchResults.getD []) env.token env.gen := by
    unfold processGuideInternal
    dsimp only
    have hacq : guideAcquirable g m (env.now - LEASE_EXPIRY_MS) = true := by
      simp [guideAcquirable, h1]
    rw [if_pos hacq, if_neg (by simp [h2])]
    have hcr : (decide (g.attempts + 1 > 1) && hasNonEmptySearchResults g.searchResults)
        = true := by
      simp [h4]
      omega
    rw [if_pos hcr]
  unfold processGuide
  dsimp only
  rw [if_neg (by simp [h1]), if_neg (by simp [h1]), hint]
  rcases hres : guideAfterSearch
      { g with
        status := .searching, attempts := g.attempts + 1,
        processingToken := some env.token, processingStartedAt := some env.now,
        processingHeartbeatAt := some env.now }
      (g.attempts + 1) true (g.searchResults.getD []) env.token env.gen with ⟨g1, r⟩
  cases r with
  | ok v => rfl
  | error e =>
    cases e with
    | leaseHeld msg => rfl
    | generic msg =>
      have hlt := (guideAfterSearch_error_lt3 _ _ _ _ _ _ _ (by rw [hres])).1
      simp only [if_pos hlt]

/-- In the cached-results branch, neither the `generating` transition
nor any later write touches the stored search results. -/
theorem guideAfterSearch_reuse_searchResults (g1 : Guide) (a : Nat) (l : List SearchResult)
    (tok : String) (gen : GenOutcome) (hl : l.isEmpty = false) :
    (guideAfterSearch g1 a true l tok gen).1.searchResults = g1.searchResults := by
  cases gen <;>
    · unfold guideAfterSearch finalizeGuideCompleted
      split_ifs <;> simp_all

/-- C10: on an attempt after the first with non-empty cached search
results, `processGuide` never consults the search oracle (two
environments differing only in the search outcome produce identical
row states and results) and leaves the stored search results unchanged
through the `generating` transition and every later write. -/
theorem cached_search_results_reused (guideId : String) (g : Guide) (m : Bool)
    (env env2 : GuideEnv)
    (h1 : g.status = .pending) (h2 : g.forceFailure = false) (h3 : 1 ≤ g.attempts)
    (h4 : hasNonEmptySearchResults g.searchResults = true)
    (htok : env.token = env2.token) (hnow : env.now = env2.now) (hgen : env.gen = env2.gen) :
    processGuide guideId g m env = processGuide guideId g m env2 ∧
    (processGuide guideId g m env).1.searchResults = g.searchResults := by
  obtain ⟨l, hsr⟩ : ∃ l, g.searchResults = some l := by
    cases hx : g.searchResults with
    | none => rw [hx] at h4; simp [hasNonEmptySearchResults] at h4
    | some l => exact ⟨l, rfl⟩
  have hl : l.isEmpty = false := by
    rw [hsr] at h4
    simpa [hasNonEmptySearchResults] using h4
  constructor
  · rw [processGuide_reuse guideId g m env h1 h2 h3 h4,
      processGuide_reuse guideId g m env2 h1 h2 h3 h4, htok, hnow, hgen]
  · rw [processGuide_reuse guideId g m env h1 h2 h3 h4]
    rw [show ({ g with
        status := GuideStatus.searching, attempts := g.attempts + 1,
        processingToken := some env.token, processingStartedAt := some env.now,
        processingHeartbeatAt := some env.now } : Guide).searchResults = g.searchResults from rfl]
      at *
    rw [hsr]
    exact guideAfterSearch_reuse_searchResults _ _ _ _ _ hl

/-- Witness for C10: a concrete second-attempt guide with cached
results gives the same outcome under a succeeding and a failing search
oracle, and keeps its cached results. -/
theorem cached_search_results_reused_witness :
    processGuide "g1" cachedGuide false baseEnv =
      processGuide "g1" cachedGuide false { baseEnv with search := .fail "down" } ∧
    (processGuide "g1" cachedGuide false baseEnv).1.searchResults = cachedGuide.searchResults :=
  cached_search_results_reused "g1" cachedGuide false baseEnv
    { baseEnv with search := .fail "down" }
    (by decide) (by decide) (by decide) (by decide) rfl rfl rfl

/-- C4 counterexample: a guide entering attempt 3 whose generation call
succeeds is marked `completed` (with skeleton content), not
`needs_attention`, and the generation step still runs — refuting "skip
generation entirely … marking the guide needs_attention". -/
theorem attempt3_completed_counterexample :
    (processGuide "g1" attempt3Guide false baseEnv).1.status = GuideStatus.completed ∧
    (processGuide "g1" attempt3Guide false baseEnv).2 = .ok true := ⟨rfl, rfl⟩

/-- C4 amended: at attempt 3 and beyond the generation call is still
made; its output is replaced by the clearly-labeled skeleton.  If the
call succeeds the guide is marked `completed` with the skeleton; only if
it fails is the guide marked `needs_attention`, with a human-readable
reason and the skeleton as content. -/
theorem attempt3_degraded_to_skeleton (guideId : String) (g : Guide) (env : GuideEnv)
    (h1 : g.status = .pending) (h2 : g.forceFailure = false) (h3 : 2 ≤ g.attempts)
    (h4 : hasNonEmptySearchResults g.searchResults = true) :
    (env.gen = .ok →
      processGuide guideId g false env =
        ({ g with
           status := .completed, attempts := g.attempts + 1,
           htmlContent := some (generateSkeletonHTML g.name g.description),
           processingToken := none, processingStartedAt := none,
           processingHeartbeatAt := none },
         .ok true)) ∧
    (∀ msg, env.gen = .fail msg →
      processGuide guideId g false env =
        ({ g with
           status := .needs_attention, attempts := g.attempts + 1,
           failureReason :=
             some "Generation failed after multiple attempts. The content may need manual review.",
           failureDetails := some (.errorAttempts msg (g.attempts + 1)),
           htmlContent := some (generateSkeletonHTML g.name g.description),
           processingToken := none, processingStartedAt := none,
           processingHeartbeatAt := none },
         .ok false)) := by
  obtain ⟨l, hsr⟩ : ∃ l, g.searchResults = some l := by
    cases hx : g.searchResults with
    | none => rw [hx] at h4; simp [hasNonEmptySearchResults] at h4
    | some l => exact ⟨l, rfl⟩
  have hl : l.isEmpty = false := by
    rw [hsr] at h4
    simpa [hasNonEmptySearchResults] using h4
  have hre := processGuide_reuse guideId g false env h1 h2 (by omega) h4
  constructor
  · intro hok
    have ha1 : g.attempts + 1 ≠ 1 := by omega
    have ha2 : g.attempts + 1 ≠ 2 := by omega
    rw [hre, hsr, hok]
    simp [guideAfterSearch, finalizeGuideCompleted, hl, ha1, ha2]
  · intro msg hmsg
    have ha3 : ¬(g.attempts + 1 < 3) := by omega
    rw [hre, hsr, hmsg]
    simp [guideAfterSearch, hl, ha3]

/-- Witness for C4's amended claim at a concrete third-attempt guide. -/
theorem attempt3_degraded_to_skeleton_witness :
    (processGuide "g1" attempt3Guide false baseEnv).1.htmlContent =
      some (generateSkeletonHTML attempt3Guide.name attempt3Guide.description) :=
  by rw [((attempt3_degraded_to_skeleton "g1" attempt3Guide baseEnv
      (by decide) (by decide) (by decide) (by decide)).1 rfl)]

/-- C6: a transient search or generation failure with remaining attempt
budget resets the guide to `pending`, releases the lease (token and both
timestamps cleared), and rethrows the error to the host, so the next
attempt re-enters from `pending`.  The three conjuncts cover a failing
search call, a failing generation call after a fresh search, and a
failing generation call on cached search results. -/
theorem transient_failure_resets_lease (guideId : String) (g : Guide) (env : GuideEnv)
    (h1 : g.status = .pending) (h2 : g.forceFailure = false) (h3 : g.attempts ≤ 1) :
    (∀ msg, g.attempts = 1 → hasNonEmptySearchResults g.searchResults = true →
      env.gen = .fail msg →
      processGuide guideId g false env =
        ({ g with
           status := .pending, attempts := 2,
           failureDetails := some (.lastErrorAttempt msg 2),
           processingToken := none, processingStartedAt := none,
           processingHeartbeatAt := none },
         .error (.generic msg))) ∧
    (∀ msg, env.search = .fail msg →
      g.attempts = 0 ∨ hasNonEmptySearchResults g.searchResults = false →
      processGuide guideId g false env =
        ({ g with
           status := .pending, attempts := g.attempts + 1, searchResults := some [],
           failureDetails := some (.lastErrorAttempt msg (g.attempts + 1)),
           processingToken := none, processingStartedAt := none,
           processingHeartbeatAt := none },
         .error (.generic msg))) ∧
    (∀ msg rs, env.search = .results rs → rs ≠ [] → env.gen = .fail msg →
      g.attempts = 0 ∨ hasNonEmptySearchResults g.searchResults = false →
      processGuide guideId g false env =
        ({ g with
           status := .pending, attempts := g.attempts + 1, searchResults := some rs,
           failureDetails := some (.lastErrorAttempt msg (g.attempts + 1)),
           processingToken := none, processingStartedAt := none,
           processingHeartbeatAt := none },
         .error (.generic msg))) := by
  have hacq : guideAcquirable g false (env.now - LEASE_EXPIRY_MS) = true := by
    simp [guideAcquirable, h1]
  refine ⟨fun msg ha hne hgen => ?_, fun msg hmsg h5 => ?_, fun msg rs hsearch hrs hgen h5 => ?_⟩
  · obtain ⟨l, hsr⟩ : ∃ l, g.searchResults = some l := by
      cases hx : g.searchResults with
      | none => rw [hx] at hne; simp [hasNonEmptySearchResults] at hne
      | some l => exact ⟨l, rfl⟩
    have hl : l.isEmpty = false := by
      rw [hsr] at hne
      simpa [hasNonEmptySearchResults] using hne
    have hre := processGuide_reuse guideId g false env h1 h2 (by omega) hne
    rw [hre, hsr, hgen]
    simp [guideAfterSearch, hl, ha]
  · have hcr : (decide (g.attempts + 1 > 1) && hasNonEmptySearchResults g.searchResults)
        = false := by
      rcases h5 with h | h <;> simp [h]
    have hint : processGuideInternal guideId g (g.attempts + 1) false env =
        ({ g with
           status := .pending, attempts := g.attempts + 1, searchResults := some [],
           failureDetails := some (.lastErrorAttempt msg (g.attempts + 1)),
           processingToken := none, processingStartedAt := none,
           processingHeartbeatAt := none },
         .error (.generic msg)) := by
      unfold processGuideInternal
      dsimp only
      rw [if_pos hacq, if_neg (by simp [h2]),
        if_neg (by rw [hcr]; exact Bool.false_ne_true), hmsg]
      simp [show g.attempts + 1 < 3 by omega]
    unfold processGuide
    dsimp only
    rw [if_neg (by simp [h1]), if_neg (by simp [h1]), hint]
    simp [show g.attempts + 1 < 3 by omega]
  · have hcr : (decide (g.attempts + 1 > 1) && hasNonEmptySearchResults g.searchResults)
        = false := by
      rcases h5 with h | h <;> simp [h]
    have hint : processGuideInternal guideId g (g.attempts + 1) false env =
        ({ g with
           status := .pending, attempts := g.attempts + 1, searchResults := some rs,
           failureDetails := some (.lastErrorAttempt msg (g.attempts + 1)),
           processingToken := none, processingStartedAt := none,
           processingHeartbeatAt := none },
         .error (.generic msg)) := by
      unfold processGuideInternal
      dsimp only
      rw [if_pos hacq, if_neg (by simp [h2]),
        if_neg (by rw [hcr]; exact Bool.false_ne_true), hsearch]
      unfold guideAfterSearch
      rw [hgen]
      simp [hrs, show g.attempts + 1 < 3 by omega]
    unfold processGuide
    dsimp only
    rw [if_neg (by simp [h1]), if_neg (by simp [h1]), hint]
    simp [show g.attempts + 1 < 3 by omega]

/-- Witness for C6 at a concrete first-attempt guide whose search call
throws. -/
theorem transient_failure_resets_lease_witness :
    processGuide "g1" baseGuide false { baseEnv with search := .fail "down" } =
      ({ baseGuide with
         status := .pending, attempts := 1, searchResults := some [],
         failureDetails := some (.lastErrorAttempt "down" 1),
         processingToken := none, processingStartedAt := none,
         processingHeartbeatAt := none },
       .error (.generic "down")) :=
  (transient_failure_resets_lease "g1" baseGuide { baseEnv with search := .fail "down" }
    (by decide) (by decide) (by decide)).2.1 "down" rfl (Or.inl (by decide))

/-- C5 counterexample: after processing a force-failed guide, the row is
`needs_attention` yet carries non-null (skeleton) `htmlContent`, so
"htmlContent non-null iff status completed" fails. -/
theorem html_iff_completed_counterexample :
    ¬ (((processGuide "g1" forcedFailureGuide false baseEnv).1.htmlContent ≠ none) ↔
       (processGuide "g1" forcedFailureGuide false baseEnv).1.status =
         GuideStatus.completed) := by
  intro hiff
  have hc := hiff.mp (fun h => Option.noConfusion h)
  exact absurd hc (fun h => GuideStatus.noConfusion h)

/-- The tail `guideAfterSearch` preserves "completed implies non-null html". -/
theorem guideAfterSearch_preserves_html (g1 : Guide) (a : Nat) (c : Bool)
    (l : List SearchResult) (tok : String) (gen : GenOutcome)
    (h : g1.status = .completed → g1.htmlContent ≠ none) :
    (guideAfterSearch g1 a c l tok gen).1.status = .completed →
    (guideAfterSearch g1 a c l tok gen).1.htmlContent ≠ none := by
  cases gen <;>
    · unfold guideAfterSearch finalizeGuideCompleted
      split_ifs <;> simp_all

/-- The function `processGuideInternal` preserves "completed implies non-null html". -/
theorem processGuideInternal_preserves_html (guideId : String) (g : Guide) (attempt : Nat)
    (m : Bool) (env : GuideEnv)
    (h : g.status = .completed → g.htmlContent ≠ none) :
    (processGuideInternal guideId g attempt m env).1.status = .completed →
    (processGuideInternal guideId g attempt m env).1.htmlContent ≠ none := by
  unfold processGuideInternal
  dsimp only
  by_cases hacq : guideAcquirable g m (env.now - LEASE_EXPIRY_MS) = true
  · rw [if_pos hacq]
    by_cases hforce : g.forceFailure = true
    · rw [if_pos hforce]
      split_ifs <;> simp
    · rw [if_neg hforce]
      by_cases hreuse : (decide (attempt > 1) && hasNonEmptySearchResults g.searchResults) = true
      · rw [if_pos hreuse]
        exact guideAfterSearch_preserves_html _ _ _ _ _ _ (by simp)
      · rw [if_neg hreuse]
        cases hs : env.search with
        | fail msg => split_ifs <;> simp
        | results rs => exact guideAfterSearch_preserves_html _ _ _ _ _ _ (by simp)
  · rw [if_neg hacq]
    split_ifs <;> simp_all

/-- C5 amended: every processing operation preserves the one-directional
invariant "if status is completed then htmlContent is non-null"; the
converse direction fails because `needs_attention` guides may carry the
skeleton placeholder (see the counterexample). -/
theorem completed_implies_html_nonnull (guideId : String) (g : Guide) (m : Bool)
    (env : GuideEnv) (h : g.status = .completed → g.htmlContent ≠ none) :
    (processGuide guideId g m env).1.status = .completed →
    (processGuide guideId g m env).1.htmlContent ≠ none := by
  unfold processGuide
  dsimp only
  by_cases hg1 : g.status = GuideStatus.completed ∧ strTruthy g.htmlContent = true
  · rw [if_pos hg1]
    intro _
    exact h hg1.1
  · rw [if_neg hg1]
    by_cases hg2 : g.status = GuideStatus.needs_attention ∧ m = false
    · rw [if_pos hg2]
      intro hc
      rw [hg2.1] at hc
      exact absurd hc (by simp)
    · rw [if_neg hg2]
      have hint := processGuideInternal_preserves_html guideId g (g.attempts + 1) m env h
      rcases hres : processGuideInternal guideId g (g.attempts + 1) m env with ⟨g1, r⟩
      rw [hres] at hint
      cases r with
      | ok v => exact hint
      | error e =>
        cases e with
        | leaseHeld msg => exact hint
        | generic msg =>
          by_cases hlt : g.attempts + 1 < 3
          · simpa [hlt] using hint
          · simp only [hlt, if_false]
            split_ifs <;> simp_all

/-- Witness for C5's amended claim: a successful run of a fresh guide
ends completed with non-null content. -/
theorem completed_implies_html_nonnull_witness :
    (processGuide "g1" baseGuide false baseEnv).1.htmlContent ≠ none :=
  completed_implies_html_nonnull "g1" baseGuide false baseEnv (by decide) rfl

end Trelent
